import Mathlib

/-!
Verification development for the "pop" chaincode repository.

The repository contains two variants of the same smart contract:
* a composite-key variant (file given without a name, `part_000`), which stores
  segments under Fabric composite keys plus a flat segment index, and
* a CouchDB document variant (`pop/pop.go`), which stores segment and map
  documents under flat keys and compiles URL-encoded filters to rich queries.

The shared data model (segments, ledger state, stub) is embedded first, then
each variant's operations in its own namespace (`Popkv` for the composite-key
variant, `Popdoc` for the document variant).

Modelling conventions:
* Ledger state is an association list from keys to structured values; the
  structured value constructors record exactly which serializer produced the
  stored bytes, and `renderVal` recovers the byte string.
* Fabric composite keys are modelled structurally (object type plus attribute
  list); Fabric's encoding separates attributes with U+0000, which no attribute
  written by this chaincode contains, so the structural model matches the
  byte-level one, including the fact that plain (flat) keys and composite keys
  never collide while all flat keys share one namespace.
* `PutState` may fail; the stub carries the set of keys whose writes fail,
  and a failed write leaves the state unchanged.
* A stored nil value (`Val.mapNil`) is returned by `GetState` as nil bytes,
  exactly like an absent key, which the `getStateOpt` accessor models.
-/

/-- A segment as this chaincode consumes it: the externally defined
`cs.Segment` value object, reduced to the fields the chaincode reads
(`Link.GetProcess`, `Link.GetMapID`, `GetLinkHashString`,
`Link.GetPrevLinkHashString`) plus an opaque remainder `payload` standing for
the rest of the record (link state, meta, evidence). An empty `prevLinkHash`
means the segment is a genesis segment. -/
structure Segment where
  process : String
  mapID : String
  linkHash : String
  prevLinkHash : String
  payload : String
deriving DecidableEq, Repr

/-- Ledger keys: Fabric world-state keys are either plain string keys or
composite keys built from an object type and an attribute list. -/
inductive Key where
  | plain (k : String)
  | composite (objectType : String) (attrs : List String)
deriving DecidableEq, Repr

/-- Values stored in the world state. Each constructor records which
serialization produced the stored byte string; `renderVal` gives the bytes. -/
inductive Val where
  /-- json.Marshal of a cs.Segment (composite-key variant record). -/
  | seg (s : Segment)
  /-- json.Marshal of SegmentIndex\x7bprocess, mapID\x7d. -/
  | segIndex (process mapID : String)
  /-- Raw process-name bytes []byte(process) (flat mapID index). -/
  | procB (process : String)
  /-- []byte(nil): nil marker stored at the composite map key. -/
  | mapNil
  /-- json.Marshal of SegmentDoc\x7bdocType, id, segment\x7d (document variant). -/
  | segDoc (s : Segment)
  /-- json.Marshal of MapDoc\x7bdocType, id, process\x7d (document variant). -/
  | mapDoc (id process : String)
deriving DecidableEq, Repr

/-- Canonical JSON serialization of a segment, modelling json.Marshal of the
external `cs.Segment`. The exact field layout of the external type is opaque;
what matters is that it is a fixed deterministic function of the segment, which
this concrete encoding provides. JSON string escaping is not modelled. -/
def serSegment (s : Segment) : String :=
  "\x7b\"link\":\x7b\"meta\":\x7b\"mapId\":\"" ++ s.mapID ++
  "\",\"prevLinkHash\":\"" ++ s.prevLinkHash ++
  "\",\"process\":\"" ++ s.process ++
  "\"\x7d,\"state\":\"" ++ s.payload ++
  "\"\x7d,\"meta\":\x7b\"linkHash\":\"" ++ s.linkHash ++ "\"\x7d\x7d"

/-- json.Marshal of the composite-key variant's SegmentIndex struct. -/
def serSegmentIndex (process mapID : String) : String :=
  "\x7b\"process\":\"" ++ process ++ "\",\"mapID\":\"" ++ mapID ++ "\"\x7d"

/-- json.Marshal of the document variant's SegmentDoc struct. -/
def serSegmentDoc (s : Segment) : String :=
  "\x7b\"docType\":\"segment\",\"id\":\"" ++ s.linkHash ++ "\",\"segment\":" ++
  serSegment s ++ "\x7d"

/-- json.Marshal of the document variant's MapDoc struct. -/
def serMapDoc (id process : String) : String :=
  "\x7b\"docType\":\"map\",\"id\":\"" ++ id ++ "\",\"process\":\"" ++ process ++
  "\"\x7d"

/-- The zero value of cs.Segment, produced by Go's lenient json.Unmarshal when
a stored document lacks the expected fields. -/
def segZero : Segment := ⟨"", "", "", "", ""⟩

/-- The byte string a stored value renders to (what GetState hands back). -/
def renderVal : Val → String
  | .seg s => serSegment s
  | .segIndex p m => serSegmentIndex p m
  | .procB p => p
  | .mapNil => ""
  | .segDoc s => serSegmentDoc s
  | .mapDoc i p => serMapDoc i p

/-- Ledger: association list from keys to stored values, kept with unique
keys by `putStateL`. -/
abbrev Ledger := List (Key × Val)

/-- First value stored at a key. -/
def lookupL : Ledger → Key → Option Val
  | [], _ => none
  | kv :: rest, k => if kv.1 = k then some kv.2 else lookupL rest k

/-- Write a value at a key: remove any existing entry, append the new one.
Queries observe only key order, so the list position is irrelevant to them. -/
def putStateL : Ledger → Key → Val → Ledger
  | [], k, v => [(k, v)]
  | kv :: rest, k, v =>
    if kv.1 = k then putStateL rest k v else kv :: putStateL rest k v

/-- GetState as the chaincode observes it: a stored nil value is returned as
nil bytes, indistinguishable from an absent key. -/
def getStateOpt (l : Ledger) (k : Key) : Option Val :=
  match lookupL l k with
  | none => none
  | some .mapNil => none
  | some v => some v

/-- string(bytes) of a GetState result: nil bytes become the empty string. -/
def stateString (o : Option Val) : String :=
  match o with
  | none => ""
  | some v => renderVal v

/-- The chaincode stub: world state, the set of keys whose PutState fails
(modelling backend write failure), and the rich-query oracle of the document
variant (CouchDB selector evaluation is an external collaborator; the oracle
records which value list the backend returns for a given query string; a
missing entry models GetQueryResult itself failing). -/
structure Stub where
  ledger : Ledger
  failKeys : List Key
  queryResults : List (String × List Val)
deriving DecidableEq, Repr

/-- PutState: fails (leaving the state unchanged) exactly on failKeys. -/
def putState (st : Stub) (k : Key) (v : Val) : Except String Stub :=
  if k ∈ st.failKeys then .error "PutState failed"
  else .ok { st with ledger := putStateL st.ledger k v }

/-- A PutState call whose returned error the caller discards: on failure the
state is simply left unchanged and execution continues. -/
def putStateIgnored (st : Stub) (k : Key) (v : Val) : Stub :=
  match putState st k v with
  | .ok st' => st'
  | .error _ => st

/-- shim.OK. -/
def OK : Nat := 200

/-- shim.ERROR. -/
def ERROR : Nat := 500

/-- sc.Response as the claims observe it. -/
structure Response where
  status : Nat
  message : String
  payload : Option String
deriving DecidableEq, Repr

/-- shim.Success. -/
def mkSuccess (payload : Option String) : Response := ⟨OK, "", payload⟩

/-- shim.Error. -/
def mkError (message : String) : Response := ⟨ERROR, message, none⟩

/-- The putSegment byte argument after json.Unmarshal: either it failed to
parse as a segment, or it yielded the segment `s`. -/
inductive SegArg where
  | malformed
  | wellFormed (s : Segment)
deriving DecidableEq, Repr

/-- Modelled from the spec: the external segment validation collaborator
(`cs.Segment.Validate`, vendored outside the provided sources). The spec
requires the identity and grouping fields of a segment to be present and
delegates deeper semantic checks to this collaborator, whose message is
surfaced verbatim on failure. -/
def validate (s : Segment) : Except String Unit :=
  if s.linkHash = "" then .error "meta.linkHash should be a non empty string"
  else if s.process = "" then .error "link.meta.process should be a non empty string"
  else if s.mapID = "" then .error "link.meta.mapId should be a non empty string"
  else .ok ()

deriving instance DecidableEq for Except

/-- Result of a Go function call that may panic (nil-pointer dereference). -/
inductive GoResult (α : Type) where
  | ok (a : α)
  | panicked
deriving DecidableEq, Repr

namespace Popkv

/-- Object type of segment composite keys. -/
def SegmentObjectType : String := "segment"

/-- Object type of map composite keys. -/
def MapObjectType : String := "map"

/-- Whether a key is returned by GetStateByPartialCompositeKey for the given
object type and partial attribute list. Fabric matches on the encoded prefix;
for attribute strings free of the U+0000 separator (all strings this chaincode
writes) that is exactly an attribute-list prefix match. -/
def ckMatches (objT : String) (attrs : List String) (k : Key) : Bool :=
  match k with
  | .plain _ => false
  | .composite o as => o == objT && attrs.isPrefixOf as

/-- Strict lexicographic order on character lists (byte order for the
plain-ASCII strings this chaincode stores). -/
def charListLt : List Char → List Char → Bool
  | [], [] => false
  | [], _ :: _ => true
  | _ :: _, [] => false
  | a :: as, b :: bs =>
    if a < b then true else if b < a then false else charListLt as bs

/-- Strict lexicographic order on strings. -/
def strLt (a b : String) : Bool := charListLt a.toList b.toList

/-- Lexicographic order on attribute lists, matching byte order of Fabric's
U+0000-separated composite key encoding for separator-free attributes. -/
def attrsLe : List String → List String → Bool
  | [], _ => true
  | _ :: _, [] => false
  | a :: as, b :: bs => if a = b then attrsLe as bs else strLt a b

/-- Order on keys matching byte order of their encoded forms (composite keys
are prefixed with U+0000, hence sort before plain keys). -/
def keyLe (k1 k2 : Key) : Bool :=
  match k1, k2 with
  | .composite o1 a1, .composite o2 a2 =>
    if o1 = o2 then attrsLe a1 a2 else strLt o1 o2
  | .composite _ _, .plain _ => true
  | .plain _, .composite _ _ => false
  | .plain a, .plain b => !strLt b a

/-- Insert an entry into a key-sorted list. -/
def insertByKey (kv : Key × Val) : List (Key × Val) → List (Key × Val)
  | [] => [kv]
  | x :: xs => if keyLe kv.1 x.1 then kv :: x :: xs else x :: insertByKey kv xs

/-- Sort entries by key (the order a Fabric range scan returns results in). -/
def sortByKey : List (Key × Val) → List (Key × Val)
  | [] => []
  | x :: xs => insertByKey x (sortByKey xs)

/-- GetStateByPartialCompositeKey: all matching entries in key order. -/
def scanPartialCK (l : Ledger) (objT : String) (attrs : List String) :
    List (Key × Val) :=
  sortByKey (l.filter (fun kv => ckMatches objT attrs kv.1))

/-- putMap (composite-key variant). Both PutState return values are discarded
by the source, so write failures are silently ignored. CreateCompositeKey is
total on the strings this chaincode passes. -/
def putMap (st : Stub) (s : Segment) : Except String Stub :=
  let ck := Key.composite MapObjectType [s.process, s.mapID]
  let st1 := putStateIgnored st ck .mapNil
  let st2 := putStateIgnored st1 (.plain s.mapID) (.procB s.process)
  .ok st2

/-- getSegment (composite-key variant): resolve the flat index at the link
hash, rebuild the composite key, and return whatever is stored there (a
missing composite record yields Success with nil payload, as in the source).
Go's json.Unmarshal into SegmentIndex is lenient: any stored JSON object
succeeds, with absent fields left as empty strings. -/
def getSegment (st : Stub) (linkHash : String) : Response :=
  match getStateOpt st.ledger (.plain linkHash) with
  | none => mkError "Segment does not exist"
  | some v =>
    match unmarshalSegmentIndex v with
    | none => mkError "could not unmarshal segment index"
    | some (p, m) =>
      let ck := Key.composite SegmentObjectType [p, m, linkHash]
      mkSuccess ((getStateOpt st.ledger ck).map renderVal)
where
  /-- json.Unmarshal of stored bytes into SegmentIndex: exact for index
  records; other stored JSON objects succeed leniently with the fields they
  happen to share; raw process bytes are not JSON and fail. -/
  unmarshalSegmentIndex : Val → Option (String × String)
    | .segIndex p m => some (p, m)
    | .procB _ => none
    | .seg _ => some ("", "")
    | .segDoc _ => some ("", "")
    | .mapDoc _ p => some (p, "")
    | .mapNil => none

/-- Tail of putSegment (source lines headed "Save segment"): write the segment
record under its composite key and the flat index under the link hash. Both
PutState return values are discarded by the source. -/
def putSegmentStore (st : Stub) (s : Segment) : Response × Stub :=
  let ck := Key.composite SegmentObjectType [s.process, s.mapID, s.linkHash]
  let st1 := putStateIgnored st ck (.seg s)
  let st2 := putStateIgnored st1 (.plain s.linkHash) (.segIndex s.process s.mapID)
  (mkSuccess none, st2)

/-- putSegment (composite-key variant). -/
def putSegment (st : Stub) (arg : SegArg) : Response × Stub :=
  match arg with
  | .malformed => (mkError "Could not parse segment", st)
  | .wellFormed s =>
    match validate s with
    | .error e => (mkError e, st)
    | .ok _ =>
      if s.prevLinkHash = "" then
        match putMap st s with
        | .error e => (mkError e, st)
        | .ok st1 => putSegmentStore st1 s
      else
        if (getSegment st s.prevLinkHash).status = ERROR then
          (mkError "Parent segment doesn't exist", st)
        else
          putSegmentStore st s

/-- getString extractor for map scans: SplitCompositeKey and quote the second
attribute (the mapID). Only composite map keys, which always carry exactly two
attributes, reach this function. -/
def getStringFromMapQueryResponse (kv : Key × Val) : Except String String :=
  match kv.1 with
  | .composite _ (_ :: mapID :: _) => .ok ("\"" ++ mapID ++ "\"")
  | _ => .error "invalid composite key"

/-- getString extractor for segment scans: the stored bytes verbatim. -/
def getStringFromSegmentQueryResponse (kv : Key × Val) : Except String String :=
  .ok (renderVal kv.2)

/-- bytesFromResultsIterator (composite-key variant): drain the iterator into
a JSON array, aborting (and discarding the buffer) on the first extractor
error. -/
def bytesFromResultsIterator (items : List (Key × Val))
    (getString : Key × Val → Except String String) : Except String String :=
  go items false "["
where
  go : List (Key × Val) → Bool → String → Except String String
    | [], _, buf => .ok (buf ++ "]")
    | x :: xs, written, buf =>
      let buf1 := if written then buf ++ "," else buf
      match getString x with
      | .error e => .error e
      | .ok s => go xs true (buf1 ++ s)

/-- getMapsAll. The Bool is true iff the scan iterator is closed before the
invocation returns; the source defers Close, so it is closed on every path. -/
def getMapsAll (st : Stub) : Response × Bool :=
  let items := scanPartialCK st.ledger MapObjectType []
  match bytesFromResultsIterator items getStringFromMapQueryResponse with
  | .error e => (mkError e, true)
  | .ok b => (mkSuccess (some b), true)

/-- getMapsForProcess. -/
def getMapsForProcess (st : Stub) (process : String) : Response × Bool :=
  let items := scanPartialCK st.ledger MapObjectType [process]
  match bytesFromResultsIterator items getStringFromMapQueryResponse with
  | .error e => (mkError e, true)
  | .ok b => (mkSuccess (some b), true)

/-- getSegmentsAll. -/
def getSegmentsAll (st : Stub) : Response × Bool :=
  let items := scanPartialCK st.ledger SegmentObjectType []
  match bytesFromResultsIterator items getStringFromSegmentQueryResponse with
  | .error e => (mkError e, true)
  | .ok b => (mkSuccess (some b), true)

/-- getSegmentsForProcess. -/
def getSegmentsForProcess (st : Stub) (process : String) : Response × Bool :=
  let items := scanPartialCK st.ledger SegmentObjectType [process]
  match bytesFromResultsIterator items getStringFromSegmentQueryResponse with
  | .error e => (mkError e, true)
  | .ok b => (mkSuccess (some b), true)

/-- getSegmentsForMap: look up the process owning the mapID through the flat
index (string(nil) is the empty string when the index entry is missing), then
scan segments under (process, mapID). -/
def getSegmentsForMap (st : Stub) (mapId : String) : Response × Bool :=
  let processStr := stateString (getStateOpt st.ledger (.plain mapId))
  let items := scanPartialCK st.ledger SegmentObjectType [processStr, mapId]
  match bytesFromResultsIterator items getStringFromSegmentQueryResponse with
  | .error e => (mkError e, true)
  | .ok b => (mkSuccess (some b), true)

end Popkv

namespace Popdoc

/-- ObjectTypeSegment of the document variant. -/
def ObjectTypeSegment : String := "segment"

/-- ObjectTypeMap of the document variant. -/
def ObjectTypeMap : String := "map"

/-- Numeric value of a hex digit character, by code point. -/
def hexDigitValue (c : Char) : Option Nat :=
  let n := c.toNat
  if 48 ≤ n && n ≤ 57 then some (n - 48)
  else if 97 ≤ n && n ≤ 102 then some (n - 87)
  else if 65 ≤ n && n ≤ 70 then some (n - 55)
  else none

/-- Hex digit test for the 32-byte hash decode. -/
def isHexDigit (c : Char) : Bool :=
  (hexDigitValue c).isSome

/-- Modelled from the spec: `types.NewBytes32FromString` (vendored outside the
provided sources) succeeds exactly on strings that decode to a 32-byte hash,
i.e. 64 hex characters; its String method re-emits lowercase hex. -/
def isBytes32Hex (s : String) : Bool :=
  s.length == 64 && s.toList.all isHexDigit

/-- Lowercase a hex string, modelling Bytes32.String after a decode. -/
def lowerHex (s : String) : String :=
  (s.toList.map Char.toLower).asString

/-- url.QueryUnescape on a character list: %XX percent-escapes and plus signs
decode, anything else passes through; a malformed escape is an error. -/
def unescapeChars : List Char → Option (List Char)
  | [] => some []
  | '%' :: a :: b :: rest =>
    match hexDigitValue a, hexDigitValue b with
    | some x, some y => (unescapeChars rest).map (Char.ofNat (16 * x + y) :: ·)
    | _, _ => none
  | '%' :: _ => none
  | '+' :: rest => (unescapeChars rest).map (' ' :: ·)
  | c :: rest => (unescapeChars rest).map (c :: ·)

/-- url.QueryUnescape. -/
def queryUnescape (s : String) : Option String :=
  (unescapeChars s.toList).map List.asString

/-- Split one query pair at the first '='; a pair without '=' has an empty
value. -/
def splitPair (l : List Char) : List Char × List Char :=
  match l with
  | [] => ([], [])
  | '=' :: rest => ([], rest)
  | c :: rest =>
    let (k, v) := splitPair rest
    (c :: k, v)

/-- Split a query string at every '&' separator. -/
def splitAmp : List Char → List (List Char)
  | [] => [[]]
  | '&' :: rest => [] :: splitAmp rest
  | c :: rest =>
    match splitAmp rest with
    | [] => [[c]]
    | p :: ps => (c :: p) :: ps

/-- url.ParseQuery: split on '&', split each pair at the first '=', and
percent-decode keys and values. Pairs with an empty key or an invalid escape
are dropped (Go records an error for the latter; no caller in this code
observes it in a way a claim depends on, see parsePagination). -/
def parseQuery (q : String) : List (String × String) :=
  (splitAmp q.toList).filterMap fun pair =>
    if pair = [] then none
    else
      let (k, v) := splitPair pair
      match queryUnescape k.asString, queryUnescape v.asString with
      | some k', some v' => if k' = "" then none else some (k', v')
      | _, _ => none

/-- url.Values lookup of all values for a key, in appearance order. -/
def getAll (v : List (String × String)) (k : String) : List String :=
  (v.filter (·.1 == k)).map (·.2)

/-- url.Values.Get: first value, or the empty string when absent. -/
def getFirst (v : List (String × String)) (k : String) : String :=
  match getAll v k with
  | [] => ""
  | x :: _ => x

/-- strconv.Atoi: optional sign then one or more digits. -/
def atoi (s : String) : Option Int :=
  match s.toList with
  | [] => none
  | '+' :: rest => natOfDigits rest
  | '-' :: rest => (natOfDigits rest).map (fun n => -(n : Int))
  | l => natOfDigits l
where
  natOfDigits (l : List Char) : Option Int :=
    if l = [] then none
    else if l.all Char.isDigit then
      some (l.foldl (fun acc c => 10 * acc + ((c.toNat : Int) - 48)) 0)
    else none

/-- store.Pagination. -/
structure Pagination where
  offset : Int
  limit : Int
deriving DecidableEq, Repr

/-- store.SegmentFilter (the prevLinkHash is kept as its lowercase hex string
form, the only way this code uses the decoded Bytes32). -/
structure SegmentFilter where
  pagination : Pagination
  mapIDs : List String
  process : String
  prevLinkHash : Option String
  tags : List String
deriving DecidableEq, Repr

/-- store.MapFilter. -/
structure MapFilter where
  pagination : Pagination
  process : String
deriving DecidableEq, Repr

/-- parsePagination: returns the (possibly nil) pagination pointer and the
(possibly nil) error exactly as the source does. A malformed integer returns
(nil, the Atoi error); a negative integer returns (nil, nil) because the
source's early return re-uses an err that Atoi just set to nil. -/
def parsePagination (q : String) : Option Pagination × Option String :=
  let v := parseQuery q
  let offsetstr := getFirst v "offset"
  let offRes : Except (Option String) Int :=
    if offsetstr = "" then .ok 0
    else
      match atoi offsetstr with
      | none => .error (some "strconv.Atoi: parsing error")
      | some o => if o < 0 then .error none else .ok o
  match offRes with
  | .error e => (none, e)
  | .ok off =>
    let limitstr := getFirst v "limit"
    let limRes : Except (Option String) Int :=
      if limitstr = "" then .ok 0
      else
        match atoi limitstr with
        | none => .error (some "strconv.Atoi: parsing error")
        | some l => if l < 0 then .error none else .ok l
    match limRes with
    | .error e => (none, e)
    | .ok lim => (some ⟨off, lim⟩, none)

/-- parseSegmentFilter. The source dereferences the pagination pointer without
checking the error from parsePagination, so a nil pagination is a nil-pointer
panic. url.ParseQuery is modelled as total (its error return is only taken for
malformed percent-escapes, which no claim exercises). -/
def parseSegmentFilter (q : String) : GoResult (Except String SegmentFilter) :=
  let v := parseQuery q
  let mapIDs := getAll v "mapIds[]" ++ getAll v "mapIds%5B%5D"
  let process := getFirst v "process"
  let prevLinkHashStr := getFirst v "prevLinkHash"
  let tags := getAll v "tags[]" ++ getAll v "tags%5B%5D"
  if prevLinkHashStr ≠ "" && !isBytes32Hex prevLinkHashStr then
    .ok (.error "invalid prevLinkHash")
  else
    let prevLinkHash :=
      if prevLinkHashStr = "" then none else some (lowerHex prevLinkHashStr)
    match (parsePagination q).1 with
    | none => .panicked
    | some pag =>
      .ok (.ok ⟨pag, mapIDs, process, prevLinkHash, tags⟩)

/-- parseMapFilter. Both the ParseQuery and parsePagination errors are
discarded with blank identifiers; dereferencing a nil pagination panics. -/
def parseMapFilter (q : String) : GoResult MapFilter :=
  let v := parseQuery q
  match (parsePagination q).1 with
  | none => .panicked
  | some pag => .ok ⟨pag, getFirst v "process"⟩

/-- MapIdsIn ($in operator wrapper). -/
structure MapIdsIn where
  mapIds : List String
deriving DecidableEq, Repr

/-- TagsAll ($all operator wrapper). -/
structure TagsAll where
  tags : List String
deriving DecidableEq, Repr

/-- SegmentSelector: string fields are rendered only when non-empty
(json omitempty), pointer fields only when non-nil. -/
structure SegmentSelector where
  objectType : String := ""
  linkHash : String := ""
  prevLinkHash : String := ""
  process : String := ""
  mapIds : Option MapIdsIn := none
  tags : Option TagsAll := none
deriving DecidableEq, Repr

/-- MapSelector. -/
structure MapSelector where
  objectType : String := ""
  process : String := ""
deriving DecidableEq, Repr

/-- JSON string escaping as encoding/json performs it on the characters the
claims exercise (quote and backslash; control and HTML escapes unmodelled). -/
def jsonEscape (s : String) : String :=
  String.join (s.toList.map fun c =>
    if c = '"' then "\\\"" else if c = '\\' then "\\\\" else String.singleton c)

/-- Render a JSON string literal. -/
def renderJsonString (s : String) : String := "\"" ++ jsonEscape s ++ "\""

/-- Render a JSON array of strings. -/
def renderStrList (l : List String) : String :=
  "[" ++ String.intercalate "," (l.map renderJsonString) ++ "]"

/-- json.Marshal of MapIdsIn: the $in field itself carries omitempty. -/
def renderMapIdsIn (ids : List String) : String :=
  if ids.length > 0 then "\x7b\"$in\":" ++ renderStrList ids ++ "\x7d"
  else "\x7b\x7d"

/-- json.Marshal of TagsAll: the $all field itself carries omitempty. -/
def renderTagsAll (ts : List String) : String :=
  if ts.length > 0 then "\x7b\"$all\":" ++ renderStrList ts ++ "\x7d"
  else "\x7b\x7d"

/-- json.Marshal of SegmentSelector: fields in declaration order, each
omitted when empty (docType has no omitempty and is always present). -/
def renderSegmentSelector (s : SegmentSelector) : String :=
  "\x7b\"docType\":" ++ renderJsonString s.objectType
  ++ (if s.linkHash ≠ "" then ",\"id\":" ++ renderJsonString s.linkHash else "")
  ++ (if s.prevLinkHash ≠ "" then
        ",\"segment.link.meta.prevLinkHash\":" ++ renderJsonString s.prevLinkHash
      else "")
  ++ (if s.process ≠ "" then
        ",\"segment.link.meta.process\":" ++ renderJsonString s.process
      else "")
  ++ (match s.mapIds with
      | none => ""
      | some ids => ",\"segment.link.meta.mapId\":" ++ renderMapIdsIn ids.mapIds)
  ++ (match s.tags with
      | none => ""
      | some ts => ",\"segment.link.meta.tags\":" ++ renderTagsAll ts.tags)
  ++ "\x7d"

/-- json.Marshal of SegmentQuery: selector (a struct value, never omitted),
then limit and skip, each omitted when zero. -/
def renderSegmentQuery (sel : SegmentSelector) (limit skip : Int) : String :=
  "\x7b\"selector\":" ++ renderSegmentSelector sel
  ++ (if limit ≠ 0 then ",\"limit\":" ++ toString limit else "")
  ++ (if skip ≠ 0 then ",\"skip\":" ++ toString skip else "")
  ++ "\x7d"

/-- json.Marshal of MapSelector. -/
def renderMapSelector (s : MapSelector) : String :=
  "\x7b\"docType\":" ++ renderJsonString s.objectType
  ++ (if s.process ≠ "" then ",\"process\":" ++ renderJsonString s.process else "")
  ++ "\x7d"

/-- json.Marshal of MapQuery. -/
def renderMapQuery (sel : MapSelector) (limit skip : Int) : String :=
  "\x7b\"selector\":" ++ renderMapSelector sel
  ++ (if limit ≠ 0 then ",\"limit\":" ++ toString limit else "")
  ++ (if skip ≠ 0 then ",\"skip\":" ++ toString skip else "")
  ++ "\x7d"

/-- The selector-construction block of newSegmentQuery, transcribed with its
asymmetry: the empty-mapIds branch clears Tags (already nil) instead of
MapIds, which is nonetheless nil there as its zero value. -/
def buildSegmentSelector (f : SegmentFilter) : SegmentSelector :=
  let s0 : SegmentSelector := { objectType := ObjectTypeSegment }
  let s1 :=
    match f.prevLinkHash with
    | some h => { s0 with prevLinkHash := h }
    | none => s0
  let s2 := if f.process ≠ "" then { s1 with process := f.process } else s1
  let s3 :=
    if f.mapIDs.length > 0 then { s2 with mapIds := some ⟨f.mapIDs⟩ }
    else { s2 with tags := none }
  if f.tags.length > 0 then { s3 with tags := some ⟨f.tags⟩ }
  else { s3 with tags := none }

/-- newSegmentQuery: parse the filter, build the selector, marshal the query.
-/
def newSegmentQuery (q : String) : GoResult (Except String String) :=
  match parseSegmentFilter q with
  | .panicked => .panicked
  | .ok (.error e) => .ok (.error e)
  | .ok (.ok f) =>
    .ok (.ok (renderSegmentQuery (buildSegmentSelector f)
      f.pagination.limit f.pagination.offset))

/-- newMapQuery. -/
def newMapQuery (q : String) : GoResult (Except String String) :=
  match parseMapFilter q with
  | .panicked => .panicked
  | .ok f =>
    let s0 : MapSelector := { objectType := ObjectTypeMap }
    let s1 := if f.process ≠ "" then { s0 with process := f.process } else s0
    .ok (.ok (renderMapQuery s1 f.pagination.limit f.pagination.offset))

/-- SaveMap (document variant): marshal and store the map document under the
bare mapID key, propagating the PutState error. -/
def SaveMap (st : Stub) (s : Segment) : Except String Stub :=
  putState st (.plain s.mapID) (.mapDoc s.mapID s.process)

/-- extractSegment: unmarshal a stored document as SegmentDoc and re-marshal
its segment. Go's json.Unmarshal is lenient: any JSON object succeeds, with
missing fields left at zero values; raw process bytes are not JSON and fail.
-/
def extractSegment (v : Val) : Except String String :=
  match v with
  | .segDoc s => .ok (serSegment s)
  | .mapDoc _ _ => .ok (serSegment segZero)
  | .segIndex _ _ => .ok (serSegment segZero)
  | .seg _ => .ok (serSegment segZero)
  | .procB _ => .error "invalid character in segment document"
  | .mapNil => .error "unexpected end of JSON input"

/-- extractMapID: unmarshal a stored document as MapDoc and quote its ID
(leniently, as Go does: a segment document also carries an \"id\" field). -/
def extractMapID (v : Val) : Except String String :=
  match v with
  | .mapDoc i _ => .ok ("\"" ++ i ++ "\"")
  | .segDoc s => .ok ("\"" ++ s.linkHash ++ "\"")
  | .segIndex _ _ => .ok ("\"\"")
  | .seg _ => .ok ("\"\"")
  | .procB _ => .error "invalid character in map document"
  | .mapNil => .error "unexpected end of JSON input"

/-- GetSegment (document variant). -/
def GetSegment (st : Stub) (linkHash : String) : Response :=
  match getStateOpt st.ledger (.plain linkHash) with
  | none => mkError "Segment does not exist"
  | some v =>
    match extractSegment v with
    | .error e => mkError e
    | .ok b => mkSuccess (some b)

/-- Tail of SaveSegment: marshal the segment document and store it under the
bare link hash key, propagating the PutState error. -/
def saveSegmentStore (st : Stub) (s : Segment) : Response × Stub :=
  match putState st (.plain s.linkHash) (.segDoc s) with
  | .error e => (mkError e, st)
  | .ok st1 => (mkSuccess none, st1)

/-- SaveSegment (document variant). -/
def SaveSegment (st : Stub) (arg : SegArg) : Response × Stub :=
  match arg with
  | .malformed => (mkError "Could not parse segment", st)
  | .wellFormed s =>
    match validate s with
    | .error e => (mkError e, st)
    | .ok _ =>
      if s.prevLinkHash = "" then
        match SaveMap st s with
        | .error e => (mkError e, st)
        | .ok st1 => saveSegmentStore st1 s
      else
        if (GetSegment st s.prevLinkHash).status = ERROR then
          (mkError "Parent segment doesn't exist", st)
        else
          saveSegmentStore st s

/-- bytesFromResultsIterator (document variant): same array shape; the source
appends the comma before pulling the next item. -/
def bytesFromResultsIterator (items : List Val)
    (extract : Val → Except String String) : Except String String :=
  go items false "["
where
  go : List Val → Bool → String → Except String String
    | [], _, buf => .ok (buf ++ "]")
    | x :: xs, written, buf =>
      let buf1 := if written then buf ++ "," else buf
      match extract x with
      | .error e => .error e
      | .ok s => go xs true (buf1 ++ s)

/-- GetQueryResult: the rich-query oracle of the stub. -/
def getQueryResult (st : Stub) (qs : String) : Option (List Val) :=
  (st.queryResults.find? (·.1 == qs)).map (·.2)

/-- FindSegments. The Bool is true iff no scan cursor is left unclosed when
the invocation returns; the source never calls Close on the iterator it
opens, so the flag is false on every path that opened one. -/
def FindSegments (st : Stub) (arg0 : String) : GoResult (Response × Bool) :=
  match newSegmentQuery arg0 with
  | .panicked => .panicked
  | .ok (.error _) => .ok (mkError "Segment filter format incorrect", true)
  | .ok (.ok qs) =>
    match getQueryResult st qs with
    | none => .ok (mkError "GetQueryResult failed", true)
    | some items =>
      match bytesFromResultsIterator items extractSegment with
      | .error e => .ok (mkError e, false)
      | .ok b => .ok (mkSuccess (some b), false)

/-- GetMapIDs. -/
def GetMapIDs (st : Stub) (arg0 : String) : GoResult (Response × Bool) :=
  match newMapQuery arg0 with
  | .panicked => .panicked
  | .ok (.error _) => .ok (mkError "Map filter format incorrect", true)
  | .ok (.ok qs) =>
    match getQueryResult st qs with
    | none => .ok (mkError "GetQueryResult failed", true)
    | some items =>
      match bytesFromResultsIterator items extractMapID with
      | .error e => .ok (mkError e, false)
      | .ok b => .ok (mkSuccess (some b), false)

end Popdoc

/-! Helper lemmas about the ledger model. -/

theorem lookupL_putStateL_self (l : Ledger) (k : Key) (v : Val) :
    lookupL (putStateL l k v) k = some v := by
  induction l with
  | nil => simp [putStateL, lookupL]
  | cons kv rest ih =>
    by_cases h : kv.1 = k
    · simpa [putStateL, h] using ih
    · simp [putStateL, lookupL, h, ih]

theorem lookupL_putStateL_ne (l : Ledger) (k k' : Key) (v : Val) (h : k' ≠ k) :
    lookupL (putStateL l k v) k' = lookupL l k' := by
  induction l with
  | nil => simp [putStateL, lookupL, Ne.symm h]
  | cons kv rest ih =>
    by_cases hkv : kv.1 = k
    · simp only [putStateL, if_pos hkv, ih, lookupL]
      rw [if_neg (hkv ▸ Ne.symm h)]
    · simp only [putStateL, if_neg hkv, lookupL, ih]

theorem lookupL_putStateL_none (l : Ledger) (k k' : Key) (v : Val)
    (h : lookupL (putStateL l k v) k' = none) : lookupL l k' = none := by
  by_cases hk : k' = k
  · rw [hk, lookupL_putStateL_self] at h
    exact absurd h (by simp)
  · rwa [lookupL_putStateL_ne l k k' v hk] at h

theorem putState_noFail (st : Stub) (k : Key) (v : Val) (h : st.failKeys = []) :
    putState st k v = .ok { st with ledger := putStateL st.ledger k v } := by
  simp [putState, h]

theorem putStateIgnored_noFail (st : Stub) (k : Key) (v : Val)
    (h : st.failKeys = []) :
    putStateIgnored st k v = { st with ledger := putStateL st.ledger k v } := by
  simp [putStateIgnored, putState_noFail, h]

theorem lookupL_putStateIgnored_none (st : Stub) (k k' : Key) (v : Val)
    (h : lookupL (putStateIgnored st k v).ledger k' = none) :
    lookupL st.ledger k' = none := by
  unfold putStateIgnored putState at h
  by_cases hf : k ∈ st.failKeys
  · simpa [hf] using h
  · simp only [if_neg hf] at h
    exact lookupL_putStateL_none _ _ _ _ h

/-- The composite-key variant's putSegment on a genesis segment, on a stub
with no failing writes: the four writes of putMap and the segment store. -/
theorem putSegment_genesis_eq (st : Stub) (s : Segment)
    (hfail : st.failKeys = []) (hval : validate s = .ok ())
    (hgen : s.prevLinkHash = "") :
    Popkv.putSegment st (.wellFormed s) =
      (mkSuccess none,
       { st with
          ledger := putStateL (putStateL (putStateL (putStateL st.ledger
                      (.composite Popkv.MapObjectType [s.process, s.mapID]) .mapNil)
                      (.plain s.mapID) (.procB s.process))
                      (.composite Popkv.SegmentObjectType [s.process, s.mapID, s.linkHash])
                      (.seg s))
                      (.plain s.linkHash) (.segIndex s.process s.mapID) }) := by
  simp [Popkv.putSegment, hval, hgen, Popkv.putMap, Popkv.putSegmentStore,
        putStateIgnored_noFail, hfail]

/-- The composite-key variant's putSegment on a non-genesis segment whose
parent check passed, on a stub with no failing writes. -/
theorem putSegment_parent_ok_eq (st : Stub) (s : Segment)
    (hfail : st.failKeys = []) (hval : validate s = .ok ())
    (hprev : s.prevLinkHash ≠ "")
    (hpar : (Popkv.getSegment st s.prevLinkHash).status ≠ ERROR) :
    Popkv.putSegment st (.wellFormed s) =
      (mkSuccess none,
       { st with
          ledger := putStateL (putStateL st.ledger
                      (.composite Popkv.SegmentObjectType [s.process, s.mapID, s.linkHash])
                      (.seg s))
                      (.plain s.linkHash) (.segIndex s.process s.mapID) }) := by
  simp [Popkv.putSegment, hval, hprev, hpar, Popkv.putSegmentStore,
        putStateIgnored_noFail, hfail]

/-- The document variant's SaveSegment on a genesis segment, on a stub with
no failing writes: the map document write and the segment document write. -/
theorem saveSegment_genesis_eq (st : Stub) (s : Segment)
    (hfail : st.failKeys = []) (hval : validate s = .ok ())
    (hgen : s.prevLinkHash = "") :
    Popdoc.SaveSegment st (.wellFormed s) =
      (mkSuccess none,
       { st with
          ledger := putStateL (putStateL st.ledger
                      (.plain s.mapID) (.mapDoc s.mapID s.process))
                      (.plain s.linkHash) (.segDoc s) }) := by
  simp [Popdoc.SaveSegment, hval, hgen, Popdoc.SaveMap,
        Popdoc.saveSegmentStore, putState_noFail, hfail]

/-- The document variant's SaveSegment on a non-genesis segment whose parent
check passed, on a stub with no failing writes. -/
theorem saveSegment_parent_ok_eq (st : Stub) (s : Segment)
    (hfail : st.failKeys = []) (hval : validate s = .ok ())
    (hprev : s.prevLinkHash ≠ "")
    (hpar : (Popdoc.GetSegment st s.prevLinkHash).status ≠ ERROR) :
    Popdoc.SaveSegment st (.wellFormed s) =
      (mkSuccess none,
       { st with ledger := putStateL st.ledger (.plain s.linkHash) (.segDoc s) }) := by
  simp [Popdoc.SaveSegment, hval, hprev, hpar, Popdoc.saveSegmentStore,
        putState_noFail, hfail]

/-- C1: for every stub state and every segment that parses and validates,
with a non-empty prevLinkHash that the read path does not resolve (getSegment
returns an error), putSegment of the composite-key variant and SaveSegment of
the document variant both return exactly the failure "Parent segment doesn't
exist" and leave the stub (hence the ledger) unchanged: no key is written. -/
theorem c1_parent_enforcement (st : Stub) (s : Segment)
    (hval : validate s = .ok ()) (hprev : s.prevLinkHash ≠ "")
    (hkv : (Popkv.getSegment st s.prevLinkHash).status = ERROR)
    (hdoc : (Popdoc.GetSegment st s.prevLinkHash).status = ERROR) :
    Popkv.putSegment st (.wellFormed s) =
      (mkError "Parent segment doesn't exist", st) ∧
    Popdoc.SaveSegment st (.wellFormed s) =
      (mkError "Parent segment doesn't exist", st) := by
  constructor
  · simp [Popkv.putSegment, hval, hprev, hkv]
  · simp [Popdoc.SaveSegment, hval, hprev, hdoc]

/-- C1 witness: an empty ledger and a concrete valid segment with parent
hash "aa": both variants fail with the exact message and an unchanged stub. -/
theorem c1_parent_enforcement_witness :
    validate ⟨"p", "m", "h", "aa", "d"⟩ = .ok () ∧
    Popkv.putSegment ⟨[], [], []⟩ (.wellFormed ⟨"p", "m", "h", "aa", "d"⟩) =
      (mkError "Parent segment doesn't exist", ⟨[], [], []⟩) ∧
    Popdoc.SaveSegment ⟨[], [], []⟩ (.wellFormed ⟨"p", "m", "h", "aa", "d"⟩) =
      (mkError "Parent segment doesn't exist", ⟨[], [], []⟩) :=
  ⟨rfl,
   (c1_parent_enforcement ⟨[], [], []⟩ ⟨"p", "m", "h", "aa", "d"⟩
      rfl (by decide) (by decide) (by decide)).1,
   (c1_parent_enforcement ⟨[], [], []⟩ ⟨"p", "m", "h", "aa", "d"⟩
      rfl (by decide) (by decide) (by decide)).2⟩

theorem getStateOpt_put_self (l : Ledger) (k : Key) (v : Val)
    (hv : v ≠ .mapNil) : getStateOpt (putStateL l k v) k = some v := by
  unfold getStateOpt
  rw [lookupL_putStateL_self]
  cases v <;> simp_all

theorem getStateOpt_put_ne (l : Ledger) (k k' : Key) (v : Val) (h : k' ≠ k) :
    getStateOpt (putStateL l k v) k' = getStateOpt l k' := by
  unfold getStateOpt
  rw [lookupL_putStateL_ne _ _ _ _ h]

/-- C2: for every stub with no failing writes and every valid genesis segment
(empty prevLinkHash), putSegment succeeds and getSegment at the segment's link
hash returns exactly the canonical serialization of the segment, byte for
byte, in both the composite-key and the document variant. -/
theorem c2_round_trip (st : Stub) (s : Segment)
    (hfail : st.failKeys = []) (hval : validate s = .ok ())
    (hgen : s.prevLinkHash = "") :
    ((Popkv.putSegment st (.wellFormed s)).1.status = OK ∧
     Popkv.getSegment (Popkv.putSegment st (.wellFormed s)).2 s.linkHash =
       mkSuccess (some (serSegment s))) ∧
    ((Popdoc.SaveSegment st (.wellFormed s)).1.status = OK ∧
     Popdoc.GetSegment (Popdoc.SaveSegment st (.wellFormed s)).2 s.linkHash =
       mkSuccess (some (serSegment s))) := by
  rw [putSegment_genesis_eq st s hfail hval hgen,
      saveSegment_genesis_eq st s hfail hval hgen]
  refine ⟨⟨rfl, ?_⟩, ⟨rfl, ?_⟩⟩
  · show Popkv.getSegment _ s.linkHash = _
    unfold Popkv.getSegment
    rw [getStateOpt_put_self _ _ _ (by simp)]
    show (match Popkv.getSegment.unmarshalSegmentIndex
            (.segIndex s.process s.mapID) with
          | none => mkError "could not unmarshal segment index"
          | some (p, m) =>
            mkSuccess ((getStateOpt _
              (Key.composite Popkv.SegmentObjectType [p, m, s.linkHash])).map
                renderVal)) = _
    show mkSuccess ((getStateOpt _
      (Key.composite Popkv.SegmentObjectType
        [s.process, s.mapID, s.linkHash])).map renderVal) = _
    rw [getStateOpt_put_ne _ _ _ _ (by simp),
        getStateOpt_put_self _ _ _ (by simp)]
    rfl
  · show Popdoc.GetSegment _ s.linkHash = _
    unfold Popdoc.GetSegment
    rw [getStateOpt_put_self _ _ _ (by simp)]
    rfl

/-- C2 witness: a concrete genesis segment round-trips byte-identically in
both variants. -/
theorem c2_round_trip_witness :
    validate ⟨"p", "m", "h", "", "d"⟩ = .ok () ∧
    (Popkv.getSegment
      (Popkv.putSegment ⟨[], [], []⟩ (.wellFormed ⟨"p", "m", "h", "", "d"⟩)).2
      "h" = mkSuccess (some (serSegment ⟨"p", "m", "h", "", "d"⟩)) ∧
     Popdoc.GetSegment
      (Popdoc.SaveSegment ⟨[], [], []⟩ (.wellFormed ⟨"p", "m", "h", "", "d"⟩)).2
      "h" = mkSuccess (some (serSegment ⟨"p", "m", "h", "", "d"⟩))) :=
  ⟨rfl,
   (c2_round_trip ⟨[], [], []⟩ ⟨"p", "m", "h", "", "d"⟩ rfl rfl rfl).1.2,
   (c2_round_trip ⟨[], [], []⟩ ⟨"p", "m", "h", "", "d"⟩ rfl rfl rfl).2.2⟩

/-- Neither variant's segment-write path ever removes a stored key: a key
absent after putSegment (composite-key variant) was absent before. -/
theorem putSegment_no_delete (st : Stub) (arg : SegArg) (k : Key)
    (h : lookupL (Popkv.putSegment st arg).2.ledger k = none) :
    lookupL st.ledger k = none := by
  match arg with
  | .malformed => simpa [Popkv.putSegment] using h
  | .wellFormed s =>
    simp only [Popkv.putSegment] at h
    cases hv : validate s with
    | error e => rw [hv] at h; simpa using h
    | ok u =>
      rw [hv] at h
      cases u
      by_cases hg : s.prevLinkHash = ""
      · rw [if_pos hg] at h
        simp only [Popkv.putMap, Popkv.putSegmentStore] at h
        exact lookupL_putStateIgnored_none _ _ _ _
          (lookupL_putStateIgnored_none _ _ _ _
            (lookupL_putStateIgnored_none _ _ _ _
              (lookupL_putStateIgnored_none _ _ _ _ h)))
      · rw [if_neg hg] at h
        by_cases hp : (Popkv.getSegment st s.prevLinkHash).status = ERROR
        · rw [if_pos hp] at h; simpa using h
        · rw [if_neg hp] at h
          simp only [Popkv.putSegmentStore] at h
          exact lookupL_putStateIgnored_none _ _ _ _
            (lookupL_putStateIgnored_none _ _ _ _ h)

/-- The stub SaveMap returns on success extends the input stub's ledger. -/
theorem saveMap_ok_no_delete (st st1 : Stub) (s : Segment) (k : Key)
    (hok : Popdoc.SaveMap st s = .ok st1)
    (h : lookupL st1.ledger k = none) : lookupL st.ledger k = none := by
  unfold Popdoc.SaveMap putState at hok
  by_cases hf : Key.plain s.mapID ∈ st.failKeys
  · rw [if_pos hf] at hok; cases hok
  · rw [if_neg hf] at hok
    injection hok with h1
    rw [← h1] at h
    exact lookupL_putStateL_none _ _ _ _ h

/-- The segment-document write never removes a stored key. -/
theorem saveSegmentStore_no_delete (st : Stub) (s : Segment) (k : Key)
    (h : lookupL (Popdoc.saveSegmentStore st s).2.ledger k = none) :
    lookupL st.ledger k = none := by
  unfold Popdoc.saveSegmentStore putState at h
  by_cases hf : Key.plain s.linkHash ∈ st.failKeys
  · rw [if_pos hf] at h; simpa using h
  · rw [if_neg hf] at h
    exact lookupL_putStateL_none _ _ _ _ (by simpa using h)

/-- A key absent after SaveSegment (document variant) was absent before. -/
theorem saveSegment_no_delete (st : Stub) (arg : SegArg) (k : Key)
    (h : lookupL (Popdoc.SaveSegment st arg).2.ledger k = none) :
    lookupL st.ledger k = none := by
  match arg with
  | .malformed => simpa [Popdoc.SaveSegment] using h
  | .wellFormed s =>
    simp only [Popdoc.SaveSegment] at h
    cases hv : validate s with
    | error e => rw [hv] at h; simpa using h
    | ok u =>
      rw [hv] at h
      cases u
      by_cases hg : s.prevLinkHash = ""
      · rw [if_pos hg] at h
        cases hsm : Popdoc.SaveMap st s with
        | error e => rw [hsm] at h; simpa using h
        | ok st1 =>
          rw [hsm] at h
          exact saveMap_ok_no_delete st st1 s k hsm
            (saveSegmentStore_no_delete _ _ _ (by simpa using h))
      · rw [if_neg hg] at h
        by_cases hp : (Popdoc.GetSegment st s.prevLinkHash).status = ERROR
        · rw [if_pos hp] at h; simpa using h
        · rw [if_neg hp] at h
          exact saveSegmentStore_no_delete _ _ _ h

/-- C4 counterexample: two distinct valid genesis segments share link hash
"h" but differ in body; after storing the first, putSegment of the second
succeeds and overwrites the stored record for "h" (both variants), so a
subsequent putSegment call with the same link hash does not leave the stored
record unchanged. -/
theorem c4_immutability_counterexample :
    validate ⟨"p", "m", "h", "", "d2"⟩ = .ok () ∧
    serSegment ⟨"p", "m", "h", "", "d1"⟩ ≠ serSegment ⟨"p", "m", "h", "", "d2"⟩ ∧
    lookupL (Popkv.putSegment ⟨[], [], []⟩
        (.wellFormed ⟨"p", "m", "h", "", "d1"⟩)).2.ledger
      (.composite Popkv.SegmentObjectType ["p", "m", "h"]) =
      some (.seg ⟨"p", "m", "h", "", "d1"⟩) ∧
    (Popkv.putSegment
        (Popkv.putSegment ⟨[], [], []⟩ (.wellFormed ⟨"p", "m", "h", "", "d1"⟩)).2
        (.wellFormed ⟨"p", "m", "h", "", "d2"⟩)).1.status = OK ∧
    lookupL (Popkv.putSegment
        (Popkv.putSegment ⟨[], [], []⟩ (.wellFormed ⟨"p", "m", "h", "", "d1"⟩)).2
        (.wellFormed ⟨"p", "m", "h", "", "d2"⟩)).2.ledger
      (.composite Popkv.SegmentObjectType ["p", "m", "h"]) =
      some (.seg ⟨"p", "m", "h", "", "d2"⟩) ∧
    lookupL (Popdoc.SaveSegment
        (Popdoc.SaveSegment ⟨[], [], []⟩ (.wellFormed ⟨"p", "m", "h", "", "d1"⟩)).2
        (.wellFormed ⟨"p", "m", "h", "", "d2"⟩)).2.ledger
      (.plain "h") = some (.segDoc ⟨"p", "m", "h", "", "d2"⟩) :=
  ⟨rfl, by decide, by decide, by decide, by decide, by decide⟩

/-- C4 amended: a successful putSegment always leaves the record for the
presented segment's link hash holding exactly that segment's stored form (so
re-putting identically-serialized content leaves the record unchanged, while
a different body with the same link hash overwrites it — no existence check
is performed), and neither variant's write path ever deletes a stored key. -/
theorem c4_immutability_amended (st : Stub) (s : Segment)
    (hfail : st.failKeys = []) (hval : validate s = .ok ())
    (hok : (Popkv.putSegment st (.wellFormed s)).1.status = OK)
    (hdok : (Popdoc.SaveSegment st (.wellFormed s)).1.status = OK) :
    lookupL (Popkv.putSegment st (.wellFormed s)).2.ledger
      (.composite Popkv.SegmentObjectType [s.process, s.mapID, s.linkHash]) =
      some (.seg s) ∧
    lookupL (Popkv.putSegment st (.wellFormed s)).2.ledger (.plain s.linkHash) =
      some (.segIndex s.process s.mapID) ∧
    lookupL (Popdoc.SaveSegment st (.wellFormed s)).2.ledger (.plain s.linkHash) =
      some (.segDoc s) ∧
    (∀ (st' : Stub) (arg : SegArg) (k : Key),
      lookupL (Popkv.putSegment st' arg).2.ledger k = none →
      lookupL st'.ledger k = none) ∧
    (∀ (st' : Stub) (arg : SegArg) (k : Key),
      lookupL (Popdoc.SaveSegment st' arg).2.ledger k = none →
      lookupL st'.ledger k = none) := by
  refine ⟨?_, ?_, ?_,
    fun st' arg k h => putSegment_no_delete st' arg k h,
    fun st' arg k h => saveSegment_no_delete st' arg k h⟩ <;>
  by_cases hg : s.prevLinkHash = ""
  · rw [putSegment_genesis_eq st s hfail hval hg]
    show lookupL (putStateL _ _ _) _ = _
    rw [lookupL_putStateL_ne _ _ _ _ (by simp), lookupL_putStateL_self]
  · have hp : ¬ (Popkv.getSegment st s.prevLinkHash).status = ERROR := by
      intro hE
      simp [Popkv.putSegment, hval, hg, hE, mkError, ERROR, OK] at hok
    rw [putSegment_parent_ok_eq st s hfail hval hg hp]
    show lookupL (putStateL _ _ _) _ = _
    rw [lookupL_putStateL_ne _ _ _ _ (by simp), lookupL_putStateL_self]
  · rw [putSegment_genesis_eq st s hfail hval hg]
    show lookupL (putStateL _ _ _) _ = _
    rw [lookupL_putStateL_self]
  · have hp : ¬ (Popkv.getSegment st s.prevLinkHash).status = ERROR := by
      intro hE
      simp [Popkv.putSegment, hval, hg, hE, mkError, ERROR, OK] at hok
    rw [putSegment_parent_ok_eq st s hfail hval hg hp]
    show lookupL (putStateL _ _ _) _ = _
    rw [lookupL_putStateL_self]
  · rw [saveSegment_genesis_eq st s hfail hval hg]
    show lookupL (putStateL _ _ _) _ = _
    rw [lookupL_putStateL_self]
  · have hp : ¬ (Popdoc.GetSegment st s.prevLinkHash).status = ERROR := by
      intro hE
      simp [Popdoc.SaveSegment, hval, hg, hE, mkError, ERROR, OK] at hdok
    rw [saveSegment_parent_ok_eq st s hfail hval hg hp]
    show lookupL (putStateL _ _ _) _ = _
    rw [lookupL_putStateL_self]

/-- C4 amended witness: the amended statement at a concrete genesis segment. -/
theorem c4_immutability_amended_witness :
    validate ⟨"p", "m", "h", "", "d"⟩ = .ok () ∧
    lookupL (Popkv.putSegment ⟨[], [], []⟩
        (.wellFormed ⟨"p", "m", "h", "", "d"⟩)).2.ledger
      (.composite Popkv.SegmentObjectType ["p", "m", "h"]) =
      some (.seg ⟨"p", "m", "h", "", "d"⟩) ∧
    lookupL (Popdoc.SaveSegment ⟨[], [], []⟩
        (.wellFormed ⟨"p", "m", "h", "", "d"⟩)).2.ledger (.plain "h") =
      some (.segDoc ⟨"p", "m", "h", "", "d"⟩) :=
  ⟨rfl,
   (c4_immutability_amended ⟨[], [], []⟩ ⟨"p", "m", "h", "", "d"⟩
      rfl rfl (by decide) (by decide)).1,
   (c4_immutability_amended ⟨[], [], []⟩ ⟨"p", "m", "h", "", "d"⟩
      rfl rfl (by decide) (by decide)).2.2.1⟩

/-- C10: the exact write set of a successful putSegment. Composite-key
variant, genesis: the composite map key, the bare mapId key, the composite
segment key and the bare linkHash key, and nothing else; non-genesis: only
the last two. Document variant: the bare mapId document and the bare linkHash
document for genesis, only the latter otherwise. The bare mapId and bare
linkHash writes land in the one flat namespace of `Key.plain`, so the final
bare-linkHash conjuncts state that a segment whose linkHash equals a
previously stored mapId replaces that map's flat-key entry. -/
theorem c10_write_set (st : Stub) (s : Segment)
    (hfail : st.failKeys = []) (hval : validate s = .ok ()) :
    (s.prevLinkHash = "" →
      (∀ k : Key, k ≠ .composite Popkv.MapObjectType [s.process, s.mapID] →
        k ≠ .plain s.mapID →
        k ≠ .composite Popkv.SegmentObjectType [s.process, s.mapID, s.linkHash] →
        k ≠ .plain s.linkHash →
        lookupL (Popkv.putSegment st (.wellFormed s)).2.ledger k =
          lookupL st.ledger k) ∧
      lookupL (Popkv.putSegment st (.wellFormed s)).2.ledger
        (.composite Popkv.MapObjectType [s.process, s.mapID]) = some .mapNil ∧
      (s.mapID ≠ s.linkHash →
        lookupL (Popkv.putSegment st (.wellFormed s)).2.ledger (.plain s.mapID) =
          some (.procB s.process)) ∧
      lookupL (Popkv.putSegment st (.wellFormed s)).2.ledger
        (.composite Popkv.SegmentObjectType [s.process, s.mapID, s.linkHash]) =
        some (.seg s) ∧
      lookupL (Popkv.putSegment st (.wellFormed s)).2.ledger (.plain s.linkHash) =
        some (.segIndex s.process s.mapID)) ∧
    (s.prevLinkHash ≠ "" →
      (Popkv.getSegment st s.prevLinkHash).status ≠ ERROR →
      (∀ k : Key,
        k ≠ .composite Popkv.SegmentObjectType [s.process, s.mapID, s.linkHash] →
        k ≠ .plain s.linkHash →
        lookupL (Popkv.putSegment st (.wellFormed s)).2.ledger k =
          lookupL st.ledger k) ∧
      lookupL (Popkv.putSegment st (.wellFormed s)).2.ledger
        (.composite Popkv.SegmentObjectType [s.process, s.mapID, s.linkHash]) =
        some (.seg s) ∧
      lookupL (Popkv.putSegment st (.wellFormed s)).2.ledger (.plain s.linkHash) =
        some (.segIndex s.process s.mapID)) ∧
    (s.prevLinkHash = "" →
      (∀ k : Key, k ≠ .plain s.mapID → k ≠ .plain s.linkHash →
        lookupL (Popdoc.SaveSegment st (.wellFormed s)).2.ledger k =
          lookupL st.ledger k) ∧
      (s.mapID ≠ s.linkHash →
        lookupL (Popdoc.SaveSegment st (.wellFormed s)).2.ledger (.plain s.mapID) =
          some (.mapDoc s.mapID s.process)) ∧
      lookupL (Popdoc.SaveSegment st (.wellFormed s)).2.ledger (.plain s.linkHash) =
        some (.segDoc s)) ∧
    (s.prevLinkHash ≠ "" →
      (Popdoc.GetSegment st s.prevLinkHash).status ≠ ERROR →
      (∀ k : Key, k ≠ .plain s.linkHash →
        lookupL (Popdoc.SaveSegment st (.wellFormed s)).2.ledger k =
          lookupL st.ledger k) ∧
      lookupL (Popdoc.SaveSegment st (.wellFormed s)).2.ledger (.plain s.linkHash) =
        some (.segDoc s)) := by
  refine ⟨fun hg => ?_, fun hg hp => ?_, fun hg => ?_, fun hg hp => ?_⟩
  · rw [putSegment_genesis_eq st s hfail hval hg]
    refine ⟨fun k h1 h2 h3 h4 => ?_, ?_, fun hm => ?_, ?_, ?_⟩
    · show lookupL (putStateL _ _ _) _ = _
      rw [lookupL_putStateL_ne _ _ _ _ h4, lookupL_putStateL_ne _ _ _ _ h3,
          lookupL_putStateL_ne _ _ _ _ h2, lookupL_putStateL_ne _ _ _ _ h1]
    · show lookupL (putStateL _ _ _) _ = _
      rw [lookupL_putStateL_ne _ _ _ _ (by simp),
          lookupL_putStateL_ne _ _ _ _
            (by simp [Popkv.MapObjectType, Popkv.SegmentObjectType]),
          lookupL_putStateL_ne _ _ _ _ (by simp), lookupL_putStateL_self]
    · show lookupL (putStateL _ _ _) _ = _
      rw [lookupL_putStateL_ne _ _ _ _ (by simp [hm]),
          lookupL_putStateL_ne _ _ _ _ (by simp), lookupL_putStateL_self]
    · show lookupL (putStateL _ _ _) _ = _
      rw [lookupL_putStateL_ne _ _ _ _ (by simp), lookupL_putStateL_self]
    · show lookupL (putStateL _ _ _) _ = _
      rw [lookupL_putStateL_self]
  · rw [putSegment_parent_ok_eq st s hfail hval hg hp]
    refine ⟨fun k h1 h2 => ?_, ?_, ?_⟩
    · show lookupL (putStateL _ _ _) _ = _
      rw [lookupL_putStateL_ne _ _ _ _ h2, lookupL_putStateL_ne _ _ _ _ h1]
    · show lookupL (putStateL _ _ _) _ = _
      rw [lookupL_putStateL_ne _ _ _ _ (by simp), lookupL_putStateL_self]
    · show lookupL (putStateL _ _ _) _ = _
      rw [lookupL_putStateL_self]
  · rw [saveSegment_genesis_eq st s hfail hval hg]
    refine ⟨fun k h1 h2 => ?_, fun hm => ?_, ?_⟩
    · show lookupL (putStateL _ _ _) _ = _
      rw [lookupL_putStateL_ne _ _ _ _ h2, lookupL_putStateL_ne _ _ _ _ h1]
    · show lookupL (putStateL _ _ _) _ = _
      rw [lookupL_putStateL_ne _ _ _ _ (by simp [hm]), lookupL_putStateL_self]
    · show lookupL (putStateL _ _ _) _ = _
      rw [lookupL_putStateL_self]
  · rw [saveSegment_parent_ok_eq st s hfail hval hg hp]
    refine ⟨fun k h1 => ?_, ?_⟩
    · show lookupL (putStateL _ _ _) _ = _
      rw [lookupL_putStateL_ne _ _ _ _ h1]
    · show lookupL (putStateL _ _ _) _ = _
      rw [lookupL_putStateL_self]

/-- C10 witness: concrete genesis write set — the four keys hold the written
values, an unrelated key is untouched, and a flat map entry at "h" written by
an earlier map is replaced by the segment index when a segment with linkHash
"h" is stored. -/
theorem c10_write_set_witness :
    validate ⟨"p", "m", "h", "", "d"⟩ = .ok () ∧
    lookupL (Popkv.putSegment ⟨[], [], []⟩
        (.wellFormed ⟨"p", "m", "h", "", "d"⟩)).2.ledger
      (.composite Popkv.MapObjectType ["p", "m"]) = some .mapNil ∧
    lookupL (Popkv.putSegment ⟨[(.plain "x", .procB "q")], [], []⟩
        (.wellFormed ⟨"p", "m", "h", "", "d"⟩)).2.ledger (.plain "x") =
      lookupL [(.plain "x", .procB "q")] (.plain "x") ∧
    lookupL (Popkv.putSegment ⟨[(.plain "h", .procB "q")], [], []⟩
        (.wellFormed ⟨"p", "m", "h", "", "d"⟩)).2.ledger (.plain "h") =
      some (.segIndex "p" "m") :=
  ⟨rfl,
   ((c10_write_set ⟨[], [], []⟩ ⟨"p", "m", "h", "", "d"⟩ rfl rfl).1 rfl).2.1,
   (((c10_write_set ⟨[(.plain "x", .procB "q")], [], []⟩
      ⟨"p", "m", "h", "", "d"⟩ rfl rfl).1 rfl).1 (.plain "x")
      (by decide) (by decide) (by decide) (by decide)),
   (((c10_write_set ⟨[(.plain "h", .procB "q")], [], []⟩
      ⟨"p", "m", "h", "", "d"⟩ rfl rfl).1 rfl).2.2.2.2)⟩

/-- C5: the composite-key variant's putSegment discards every PutState return
value. On a backend where the write of the composite map key fails, the
genesis putSegment still returns Success, the failed write is simply lost,
and the later writes proceed: the backend write error is silently swallowed
rather than returned to the caller. -/
theorem c5_swallowed_write_error :
    putState ⟨[], [.composite Popkv.MapObjectType ["p", "m"]], []⟩
      (.composite Popkv.MapObjectType ["p", "m"]) .mapNil =
      .error "PutState failed" ∧
    (Popkv.putSegment ⟨[], [.composite Popkv.MapObjectType ["p", "m"]], []⟩
      (.wellFormed ⟨"p", "m", "h", "", "d"⟩)).1 = mkSuccess none ∧
    lookupL (Popkv.putSegment ⟨[], [.composite Popkv.MapObjectType ["p", "m"]], []⟩
      (.wellFormed ⟨"p", "m", "h", "", "d"⟩)).2.ledger
      (.composite Popkv.MapObjectType ["p", "m"]) = none ∧
    lookupL (Popkv.putSegment ⟨[], [.composite Popkv.MapObjectType ["p", "m"]], []⟩
      (.wellFormed ⟨"p", "m", "h", "", "d"⟩)).2.ledger
      (.composite Popkv.SegmentObjectType ["p", "m", "h"]) =
      some (.seg ⟨"p", "m", "h", "", "d"⟩) := by
  refine ⟨?_, by decide, by decide, by decide⟩
  unfold putState
  simp

/-- C6: the document variant's FindSegments opens a query cursor and returns
without ever closing it — on the success path and on the extractor-error path
alike (the Bool output is the no-unclosed-cursor flag of the model). The
empty filter compiles to the docType-only selector; the oracle returns one
well-formed segment document for it in the first run and raw non-JSON bytes
in the second. -/
theorem c6_unclosed_cursor :
    Popdoc.newSegmentQuery "" =
      .ok (.ok "\x7b\"selector\":\x7b\"docType\":\"segment\"\x7d\x7d") ∧
    Popdoc.FindSegments
      ⟨[], [], [("\x7b\"selector\":\x7b\"docType\":\"segment\"\x7d\x7d",
                 [.segDoc ⟨"p", "m", "h", "", "d"⟩])]⟩ "" =
      .ok (mkSuccess (some ("[" ++ serSegment ⟨"p", "m", "h", "", "d"⟩ ++ "]")),
           false) ∧
    Popdoc.FindSegments
      ⟨[], [], [("\x7b\"selector\":\x7b\"docType\":\"segment\"\x7d\x7d",
                 [.procB "q"])]⟩ "" =
      .ok (mkError "invalid character in segment document", false) ∧
    Popdoc.GetMapIDs
      ⟨[], [], [("\x7b\"selector\":\x7b\"docType\":\"map\"\x7d\x7d",
                 [.mapDoc "m" "p"])]⟩ "" =
      .ok (mkSuccess (some "[\"m\"]"), false) := by
  refine ⟨by decide, by decide, by decide, by decide⟩

/-- C7: a negative offset makes parsePagination return a nil pagination with
a nil error, and a non-integer offset a nil pagination with a non-nil error;
in both cases parseSegmentFilter and parseMapFilter dereference the nil
pagination pointer, so FindSegments and GetMapIDs panic instead of returning
their filter-format failure responses. -/
theorem c7_pagination_nil_deref :
    Popdoc.parsePagination "offset=-1" = (none, none) ∧
    Popdoc.parsePagination "offset=x" =
      (none, some "strconv.Atoi: parsing error") ∧
    Popdoc.parsePagination "limit=-2" = (none, none) ∧
    Popdoc.parseSegmentFilter "offset=-1" = .panicked ∧
    Popdoc.parseMapFilter "offset=-1" = .panicked ∧
    Popdoc.FindSegments ⟨[], [], []⟩ "offset=-1" = .panicked ∧
    Popdoc.FindSegments ⟨[], [], []⟩ "offset=x" = .panicked ∧
    Popdoc.GetMapIDs ⟨[], [], []⟩ "limit=-2" = .panicked ∧
    Popdoc.GetMapIDs ⟨[], [], []⟩ "limit=x" = .panicked := by
  refine ⟨by decide, by decide, by decide, by decide, by decide, by decide,
          by decide, by decide, by decide⟩

/-- C9: both filter compilers are pure functions of the query string — equal
inputs give byte-identical compiled queries on repeated compilation. The
source builds its selectors from struct fields serialized in declaration
order and consults no clock, randomness or map-iteration order, which the
embedding reflects by being a function. -/
theorem c9_compiler_deterministic (q1 q2 : String) (h : q1 = q2) :
    Popdoc.newSegmentQuery q1 = Popdoc.newSegmentQuery q2 ∧
    Popdoc.newMapQuery q1 = Popdoc.newMapQuery q2 := by
  subst h
  exact ⟨rfl, rfl⟩

/-- C9 witness: the compilers agree with themselves on a concrete filter. -/
theorem c9_compiler_deterministic_witness :
    Popdoc.newSegmentQuery "process=p&tags[]=t" =
      Popdoc.newSegmentQuery "process=p&tags[]=t" ∧
    Popdoc.newMapQuery "process=p&tags[]=t" =
      Popdoc.newMapQuery "process=p&tags[]=t" :=
  c9_compiler_deterministic "process=p&tags[]=t" "process=p&tags[]=t" rfl

/-- C8: the compiled segment selector carries the mapIds $in operator exactly
when the parsed filter's mapIds set is non-empty, and the tags $all operator
exactly when the tags set is non-empty, each carrying exactly that set; and
the serialized compiled query is the rendering of that selector, whose
definition emits no operator for an omitted field — so an empty set never
serializes as an empty $in or $all. -/
theorem c8_empty_sets_omitted (f : Popdoc.SegmentFilter) :
    ((Popdoc.buildSegmentSelector f).mapIds = none ↔ f.mapIDs = []) ∧
    ((Popdoc.buildSegmentSelector f).tags = none ↔ f.tags = []) ∧
    (∀ ids : Popdoc.MapIdsIn,
      (Popdoc.buildSegmentSelector f).mapIds = some ids →
      ids.mapIds = f.mapIDs ∧ ids.mapIds ≠ []) ∧
    (∀ ts : Popdoc.TagsAll,
      (Popdoc.buildSegmentSelector f).tags = some ts →
      ts.tags = f.tags ∧ ts.tags ≠ []) ∧
    (∀ q : String, Popdoc.parseSegmentFilter q = .ok (.ok f) →
      Popdoc.newSegmentQuery q =
        .ok (.ok (Popdoc.renderSegmentQuery (Popdoc.buildSegmentSelector f)
          f.pagination.limit f.pagination.offset))) := by
  refine ⟨?_, ?_, ?_, ?_, fun q hq => by simp [Popdoc.newSegmentQuery, hq]⟩ <;>
  · rcases f with ⟨pag, mapIDs, process, prev, tags⟩
    cases prev <;> by_cases hpr : process = "" <;> cases mapIDs <;> cases tags <;>
      simp_all [Popdoc.buildSegmentSelector]

/-- C8 witness: a filter with one mapId and no tags compiles with the $in
field present and the tags field absent. -/
theorem c8_empty_sets_omitted_witness :
    Popdoc.parseSegmentFilter "mapIds[]=a" =
      .ok (.ok ⟨⟨0, 0⟩, ["a"], "", none, []⟩) ∧
    Popdoc.newSegmentQuery "mapIds[]=a" =
      .ok (.ok (Popdoc.renderSegmentQuery
        (Popdoc.buildSegmentSelector ⟨⟨0, 0⟩, ["a"], "", none, []⟩) 0 0)) ∧
    (Popdoc.buildSegmentSelector
      (⟨⟨0, 0⟩, ["a"], "", none, []⟩ : Popdoc.SegmentFilter)).tags = none :=
  ⟨by decide,
   (c8_empty_sets_omitted ⟨⟨0, 0⟩, ["a"], "", none, []⟩).2.2.2.2
     "mapIds[]=a" (by decide),
   (c8_empty_sets_omitted ⟨⟨0, 0⟩, ["a"], "", none, []⟩).2.1.mpr rfl⟩

set_option maxRecDepth 4000 in
/-- C3 counterexample: the scenario run with segment1's link hash "bb" and
segment2's link hash "aa". All three writes succeed, but
getSegmentsForMap("m1") returns [segment2, segment1] — the backend's
composite-key order sorts segments of a map by link hash, not write order —
refuting the claimed [segment1, segment2]. -/
theorem c3_scenario_counterexample :
    (Popkv.putSegment ⟨[], [], []⟩
      (.wellFormed ⟨"p", "m1", "bb", "", "d1"⟩)).1.status = OK ∧
    (Popkv.putSegment
      (Popkv.putSegment ⟨[], [], []⟩ (.wellFormed ⟨"p", "m1", "bb", "", "d1"⟩)).2
      (.wellFormed ⟨"p", "m1", "aa", "bb", "d2"⟩)).1.status = OK ∧
    (Popkv.putSegment
      (Popkv.putSegment
        (Popkv.putSegment ⟨[], [], []⟩
          (.wellFormed ⟨"p", "m1", "bb", "", "d1"⟩)).2
        (.wellFormed ⟨"p", "m1", "aa", "bb", "d2"⟩)).2
      (.wellFormed ⟨"p", "m2", "cc", "", "d3"⟩)).1.status = OK ∧
    (Popkv.getSegmentsForMap
      (Popkv.putSegment
        (Popkv.putSegment
          (Popkv.putSegment ⟨[], [], []⟩
            (.wellFormed ⟨"p", "m1", "bb", "", "d1"⟩)).2
          (.wellFormed ⟨"p", "m1", "aa", "bb", "d2"⟩)).2
        (.wellFormed ⟨"p", "m2", "cc", "", "d3"⟩)).2 "m1").1.payload =
      some ("[" ++ serSegment ⟨"p", "m1", "aa", "bb", "d2"⟩ ++ "," ++
        serSegment ⟨"p", "m1", "bb", "", "d1"⟩ ++ "]") ∧
    (Popkv.getSegmentsForMap
      (Popkv.putSegment
        (Popkv.putSegment
          (Popkv.putSegment ⟨[], [], []⟩
            (.wellFormed ⟨"p", "m1", "bb", "", "d1"⟩)).2
          (.wellFormed ⟨"p", "m1", "aa", "bb", "d2"⟩)).2
        (.wellFormed ⟨"p", "m2", "cc", "", "d3"⟩)).2 "m1").1.payload ≠
      some ("[" ++ serSegment ⟨"p", "m1", "bb", "", "d1"⟩ ++ "," ++
        serSegment ⟨"p", "m1", "aa", "bb", "d2"⟩ ++ "]") := by
  refine ⟨by decide, by decide, by decide, by decide, by decide⟩

/-- C3 amended: the scenario as claimed, under the backend-order proviso the
counterexample forces: all three segments share one process, and segment1's
link hash precedes segment2's in lexicographic byte order (the order a
composite-key range scan returns records in). Then the three writes succeed,
getSegmentsForMap("m1") returns exactly [segment1, segment2] — which is the
write order — and getMapsAll returns ["m1", "m2"], each mapId exactly once
even though two segments share "m1". -/
theorem c3_scenario_amended (p h1 h2 h3 d1 d2 d3 : String)
    (hp : p ≠ "") (hh1 : h1 ≠ "") (hh2 : h2 ≠ "") (hh3 : h3 ≠ "")
    (h12 : h1 ≠ h2) (h13 : h1 ≠ h3) (h23 : h2 ≠ h3)
    (hm11 : h1 ≠ "m1") (hm12 : h1 ≠ "m2") (hm21 : h2 ≠ "m1") (hm22 : h2 ≠ "m2")
    (hm31 : h3 ≠ "m1") (hm32 : h3 ≠ "m2")
    (hlt : Popkv.strLt h1 h2 = true) :
    (Popkv.putSegment ⟨[], [], []⟩
      (.wellFormed ⟨p, "m1", h1, "", d1⟩)).1.status = OK ∧
    (Popkv.putSegment
      (Popkv.putSegment ⟨[], [], []⟩ (.wellFormed ⟨p, "m1", h1, "", d1⟩)).2
      (.wellFormed ⟨p, "m1", h2, h1, d2⟩)).1.status = OK ∧
    (Popkv.putSegment
      (Popkv.putSegment
        (Popkv.putSegment ⟨[], [], []⟩ (.wellFormed ⟨p, "m1", h1, "", d1⟩)).2
        (.wellFormed ⟨p, "m1", h2, h1, d2⟩)).2
      (.wellFormed ⟨p, "m2", h3, "", d3⟩)).1.status = OK ∧
    (Popkv.getSegmentsForMap
      (Popkv.putSegment
        (Popkv.putSegment
          (Popkv.putSegment ⟨[], [], []⟩ (.wellFormed ⟨p, "m1", h1, "", d1⟩)).2
          (.wellFormed ⟨p, "m1", h2, h1, d2⟩)).2
        (.wellFormed ⟨p, "m2", h3, "", d3⟩)).2 "m1").1 =
      mkSuccess (some ("[" ++ serSegment ⟨p, "m1", h1, "", d1⟩ ++ "," ++
        serSegment ⟨p, "m1", h2, h1, d2⟩ ++ "]")) ∧
    (Popkv.getMapsAll
      (Popkv.putSegment
        (Popkv.putSegment
          (Popkv.putSegment ⟨[], [], []⟩ (.wellFormed ⟨p, "m1", h1, "", d1⟩)).2
          (.wellFormed ⟨p, "m1", h2, h1, d2⟩)).2
        (.wellFormed ⟨p, "m2", h3, "", d3⟩)).2).1 =
      mkSuccess (some "[\"m1\",\"m2\"]") := by
  have hv1 : validate ⟨p, "m1", h1, "", d1⟩ = .ok () := by simp [validate, hh1, hp]
  have hv2 : validate ⟨p, "m1", h2, h1, d2⟩ = .ok () := by simp [validate, hh2, hp]
  have hv3 : validate ⟨p, "m2", h3, "", d3⟩ = .ok () := by simp [validate, hh3, hp]
  have e1 : (Popkv.putSegment ⟨[], [], []⟩ (.wellFormed ⟨p, "m1", h1, "", d1⟩)) =
      (mkSuccess none,
       ⟨[(.composite "map" [p, "m1"], .mapNil),
         (.plain "m1", .procB p),
         (.composite "segment" [p, "m1", h1], .seg ⟨p, "m1", h1, "", d1⟩),
         (.plain h1, .segIndex p "m1")], [], []⟩) := by
    rw [putSegment_genesis_eq _ _ rfl hv1 rfl]
    simp [putStateL, Popkv.MapObjectType, Popkv.SegmentObjectType, Ne.symm hm11]
  have hg1 : Popkv.getSegment
      ⟨[(.composite "map" [p, "m1"], .mapNil),
        (.plain "m1", .procB p),
        (.composite "segment" [p, "m1", h1], .seg ⟨p, "m1", h1, "", d1⟩),
        (.plain h1, .segIndex p "m1")], [], []⟩ h1 =
      mkSuccess (some (serSegment ⟨p, "m1", h1, "", d1⟩)) := by
    simp [Popkv.getSegment, getStateOpt, lookupL, Ne.symm hm11, hm11,
          Popkv.getSegment.unmarshalSegmentIndex,
          Popkv.MapObjectType, Popkv.SegmentObjectType, renderVal]
  have e2 : (Popkv.putSegment
      ⟨[(.composite "map" [p, "m1"], .mapNil),
        (.plain "m1", .procB p),
        (.composite "segment" [p, "m1", h1], .seg ⟨p, "m1", h1, "", d1⟩),
        (.plain h1, .segIndex p "m1")], [], []⟩
      (.wellFormed ⟨p, "m1", h2, h1, d2⟩)) =
      (mkSuccess none,
       ⟨[(.composite "map" [p, "m1"], .mapNil),
         (.plain "m1", .procB p),
         (.composite "segment" [p, "m1", h1], .seg ⟨p, "m1", h1, "", d1⟩),
         (.plain h1, .segIndex p "m1"),
         (.composite "segment" [p, "m1", h2], .seg ⟨p, "m1", h2, h1, d2⟩),
         (.plain h2, .segIndex p "m1")], [], []⟩) := by
    rw [putSegment_parent_ok_eq _ _ rfl hv2 hh1
      (by rw [hg1]; simp [mkSuccess, ERROR, OK])]
    simp [putStateL, Popkv.MapObjectType, Popkv.SegmentObjectType,
          Ne.symm hm21, Ne.symm h12, h12, hm21]
  have e3 : (Popkv.putSegment
      ⟨[(.composite "map" [p, "m1"], .mapNil),
        (.plain "m1", .procB p),
        (.composite "segment" [p, "m1", h1], .seg ⟨p, "m1", h1, "", d1⟩),
        (.plain h1, .segIndex p "m1"),
        (.composite "segment" [p, "m1", h2], .seg ⟨p, "m1", h2, h1, d2⟩),
        (.plain h2, .segIndex p "m1")], [], []⟩
      (.wellFormed ⟨p, "m2", h3, "", d3⟩)) =
      (mkSuccess none,
       ⟨[(.composite "map" [p, "m1"], .mapNil),
         (.plain "m1", .procB p),
         (.composite "segment" [p, "m1", h1], .seg ⟨p, "m1", h1, "", d1⟩),
         (.plain h1, .segIndex p "m1"),
         (.composite "segment" [p, "m1", h2], .seg ⟨p, "m1", h2, h1, d2⟩),
         (.plain h2, .segIndex p "m1"),
         (.composite "map" [p, "m2"], .mapNil),
         (.plain "m2", .procB p),
         (.composite "segment" [p, "m2", h3], .seg ⟨p, "m2", h3, "", d3⟩),
         (.plain h3, .segIndex p "m2")], [], []⟩) := by
    rw [putSegment_genesis_eq _ _ rfl hv3 rfl]
    simp [putStateL, Popkv.MapObjectType, Popkv.SegmentObjectType,
          h12, h13, h23, hm11, hm12, hm21, hm22, hm31, hm32,
          Ne.symm h12, Ne.symm h13, Ne.symm h23, Ne.symm hm11, Ne.symm hm12,
          Ne.symm hm21, Ne.symm hm22, Ne.symm hm31, Ne.symm hm32]
  have eq1 : (Popkv.getSegmentsForMap
      ⟨[(.composite "map" [p, "m1"], .mapNil),
        (.plain "m1", .procB p),
        (.composite "segment" [p, "m1", h1], .seg ⟨p, "m1", h1, "", d1⟩),
        (.plain h1, .segIndex p "m1"),
        (.composite "segment" [p, "m1", h2], .seg ⟨p, "m1", h2, h1, d2⟩),
        (.plain h2, .segIndex p "m1"),
        (.composite "map" [p, "m2"], .mapNil),
        (.plain "m2", .procB p),
        (.composite "segment" [p, "m2", h3], .seg ⟨p, "m2", h3, "", d3⟩),
        (.plain h3, .segIndex p "m2")], [], []⟩ "m1").1 =
      mkSuccess (some ("[" ++ serSegment ⟨p, "m1", h1, "", d1⟩ ++ "," ++
        serSegment ⟨p, "m1", h2, h1, d2⟩ ++ "]")) := by
    simp [Popkv.getSegmentsForMap, getStateOpt, lookupL, stateString, renderVal,
          Ne.symm hm11, Popkv.scanPartialCK, Popkv.ckMatches,
          Popkv.MapObjectType, Popkv.SegmentObjectType,
          Popkv.sortByKey, Popkv.insertByKey, Popkv.keyLe, Popkv.attrsLe,
          h12, hlt,
          Popkv.bytesFromResultsIterator, Popkv.bytesFromResultsIterator.go,
          Popkv.getStringFromSegmentQueryResponse, String.append_assoc]
  have eq2 : (Popkv.getMapsAll
      ⟨[(.composite "map" [p, "m1"], .mapNil),
        (.plain "m1", .procB p),
        (.composite "segment" [p, "m1", h1], .seg ⟨p, "m1", h1, "", d1⟩),
        (.plain h1, .segIndex p "m1"),
        (.composite "segment" [p, "m1", h2], .seg ⟨p, "m1", h2, h1, d2⟩),
        (.plain h2, .segIndex p "m1"),
        (.composite "map" [p, "m2"], .mapNil),
        (.plain "m2", .procB p),
        (.composite "segment" [p, "m2", h3], .seg ⟨p, "m2", h3, "", d3⟩),
        (.plain h3, .segIndex p "m2")], [], []⟩).1 =
      mkSuccess (some "[\"m1\",\"m2\"]") := by
    simp [Popkv.getMapsAll, Popkv.scanPartialCK, Popkv.ckMatches,
          Popkv.MapObjectType, Popkv.SegmentObjectType,
          Popkv.sortByKey, Popkv.insertByKey, Popkv.keyLe, Popkv.attrsLe,
          Popkv.bytesFromResultsIterator, Popkv.bytesFromResultsIterator.go,
          Popkv.getStringFromMapQueryResponse, String.append_assoc,
          Popkv.strLt, Popkv.charListLt]
  refine ⟨?_, ?_, ?_, ?_, ?_⟩
  · rw [e1]
    rfl
  · simp only [e1, e2]
    rfl
  · simp only [e1, e2, e3]
    rfl
  · simp only [e1, e2, e3, eq1]
  · simp only [e1, e2, e3, eq2]

/-- C3 amended witness: the scenario at concrete hashes "aa" < "bb". -/
theorem c3_scenario_amended_witness :
    Popkv.strLt "aa" "bb" = true ∧
    (Popkv.getSegmentsForMap
      (Popkv.putSegment
        (Popkv.putSegment
          (Popkv.putSegment ⟨[], [], []⟩
            (.wellFormed ⟨"p", "m1", "aa", "", "d1"⟩)).2
          (.wellFormed ⟨"p", "m1", "bb", "aa", "d2"⟩)).2
        (.wellFormed ⟨"p", "m2", "cc", "", "d3"⟩)).2 "m1").1 =
      mkSuccess (some ("[" ++ serSegment ⟨"p", "m1", "aa", "", "d1"⟩ ++ "," ++
        serSegment ⟨"p", "m1", "bb", "aa", "d2"⟩ ++ "]")) ∧
    (Popkv.getMapsAll
      (Popkv.putSegment
        (Popkv.putSegment
          (Popkv.putSegment ⟨[], [], []⟩
            (.wellFormed ⟨"p", "m1", "aa", "", "d1"⟩)).2
          (.wellFormed ⟨"p", "m1", "bb", "aa", "d2"⟩)).2
        (.wellFormed ⟨"p", "m2", "cc", "", "d3"⟩)).2).1 =
      mkSuccess (some "[\"m1\",\"m2\"]") :=
  ⟨by decide,
   (c3_scenario_amended "p" "aa" "bb" "cc" "d1" "d2" "d3"
      (by decide) (by decide) (by decide) (by decide) (by decide) (by decide)
      (by decide) (by decide) (by decide) (by decide) (by decide) (by decide)
      (by decide) (by decide)).2.2.2.1,
   (c3_scenario_amended "p" "aa" "bb" "cc" "d1" "d2" "d3"
      (by decide) (by decide) (by decide) (by decide) (by decide) (by decide)
      (by decide) (by decide) (by decide) (by decide) (by decide) (by decide)
      (by decide) (by decide)).2.2.2.2⟩
